import Mathlib

/-!
# Verification of the trial-bound synchronization widget (src/js/extras.js)

The repository's only executable logic is a jQuery snippet that keeps a
"trial number" input within a per-subject maximum:

```js
$(document).ready(function () {
  const max = [6, 4, 6, 6, 6, 6, 6, 6, 6, 6, 6, 6, 6, 4, 6, 6, 6, 6, 6];

  $("#number_subject, #range_subject").on('change input', changeSubjectHandler);

  function changeSubjectHandler() {
    let subject = parseInt(params.subject);
    let subjectsMax = max[subject - 1];
    $("#number_trial, #range_trial").attr({ "max": subjectsMax });
    $("#maxmin-1 > span:nth-child(1)").html("Max: " + subjectsMax);
    if (parseInt(params.trial) >= subjectsMax) $("#number_trial, #range_trial").val(subjectsMax);
    params.trial = $("#range_trial").val();
  }

  $("#number_trial, #range_trial").on('change input', function () {
    let subject = parseInt(params.subject);
    let subjectsMax = max[subject - 1];
    if (parseInt(params.trial) >= subjectsMax) $("#number_trial, #range_trial").val(subjectsMax);
  });
});
```

We shallowly embed the two handlers as pure functions over an explicit
state record holding the DOM pieces they touch (the two trial controls'
value strings and `max` attributes, the label, the `params` object, and
the `max` array, which is a mutable closure variable in JS and is
therefore carried in the state so that its non-mutation is a theorem
rather than a modelling artefact).

JavaScript / jQuery semantics captured here:
* DOM control values and attributes are strings; `$(...).val()` returns
  the value string, `$(...).val(n)` stores the decimal rendering of `n`.
* `parseInt` skips leading whitespace, accepts an optional sign, reads
  the maximal run of leading decimal digits, and yields NaN when there
  is none; we model the number-or-NaN result as `Option Int`.
* `max[subject - 1]` is `undefined` when the index is negative, NaN or
  past the end of the array: modelled as `Option Int`.
* `x >= y` is false whenever either side is NaN or `undefined`.
* `"Max: " + subjectsMax` concatenates with the decimal rendering of
  the number, or with the text `undefined` when the bound is undefined.
* `$(...).attr({ "max": v })` with `v === undefined` performs NO write:
  jQuery's `access` helper treats an undefined value as a read
  (`else if ( value !== undefined )` fails) and returns without calling
  the attribute setter.  With a defined number it stores its decimal
  rendering.
* `params.trial = $("#range_trial").val()` stores the raw value STRING
  of the slider; `params` fields are only ever read through `parseInt`.
-/

/-- A JavaScript value as it can appear in the `params` object: a
string, an (integral) number, or `undefined`.  The widget only ever
produces integral numbers, so numbers are modelled as `Int`. -/
inductive JSVal where
  | str (s : String)
  | num (n : Int)
  | undef
  deriving DecidableEq, Repr

/-- Leading decimal-digit run of a character list, as a natural number.
Helper for `parseIntStr`. -/
def digitsToNat (cs : List Char) : Nat :=
  cs.foldl (fun a c => a * 10 + (c.toNat - 48)) 0

/-- JavaScript `parseInt` on a string (decimal case): skip leading
whitespace, read an optional sign and then the maximal run of leading
digits; NaN (here `none`) when no digit is found. -/
def parseIntStr (s : String) : Option Int :=
  let cs := s.toList.dropWhile (fun c => c.isWhitespace)
  match cs with
  | '-' :: rest =>
      let d := rest.takeWhile (fun c => c.isDigit)
      if d.isEmpty then none else some (-(digitsToNat d : Int))
  | '+' :: rest =>
      let d := rest.takeWhile (fun c => c.isDigit)
      if d.isEmpty then none else some (digitsToNat d : Int)
  | _ =>
      let d := cs.takeWhile (fun c => c.isDigit)
      if d.isEmpty then none else some (digitsToNat d : Int)

/-- JavaScript `parseInt` on a `params` field: a number is rendered to
its decimal string and re-parsed (the identity on integral numbers);
`undefined` parses to NaN. -/
def jsParseInt : JSVal → Option Int
  | .str s => parseIntStr s
  | .num n => some n
  | .undef => none

/-- JavaScript `a >= b` where either side may be NaN/`undefined`
(modelled as `none`): any comparison against NaN is false. -/
def jsGE : Option Int → Option Int → Bool
  | some a, some b => a ≥ b
  | _, _ => false

/-- JavaScript rendering of a possibly-undefined number, as used by
string concatenation: `"Max: " + 4` gives `"Max: 4"`,
`"Max: " + undefined` gives `"Max: undefined"`. -/
def jsDisplay : Option Int → String
  | some m => toString m
  | none => "undefined"

/-- The widget state: the two trial controls (numeric entry and slider)
with their value strings and `max` attribute strings, the label text,
the external `params` object, and the `max` array (a closure variable
in the source, carried here so that its immutability is provable). -/
structure WState where
  number_trial_val : String
  range_trial_val : String
  number_trial_max : String
  range_trial_max : String
  label : String
  params_subject : JSVal
  params_trial : JSVal
  maxArr : List Int
  deriving DecidableEq, Repr

/-- The table the source binds as `const max = [...]` (renamed: `max`
collides with the ambient `Max.max`). -/
def maxTable : List Int := [6, 4, 6, 6, 6, 6, 6, 6, 6, 6, 6, 6, 6, 4, 6, 6, 6, 6, 6]

/-- `max[subject - 1]` for `subject` the result of `parseInt`: NaN or a
negative / out-of-range index reads `undefined` (`none`). -/
def lookupMax (arr : List Int) : Option Int → Option Int
  | none => none
  | some s => if s - 1 < 0 then none else arr.get? (s - 1).toNat

/-- `$("#number_trial, #range_trial").attr({ "max": subjectsMax })`:
with a defined bound both `max` attributes are set to its decimal
rendering; with `undefined` jQuery performs no write at all. -/
def setMaxAttr (mOpt : Option Int) (st : WState) : WState :=
  match mOpt with
  | some m => { st with number_trial_max := toString m, range_trial_max := toString m }
  | none => st

/-- `if (parseInt(params.trial) >= subjectsMax) $("#number_trial, #range_trial").val(subjectsMax);`
— the clamp shared by both handlers.  The comparison is false whenever
the bound is `undefined`, so the write only happens with a defined
bound. -/
def clampStep (mOpt : Option Int) (st : WState) : WState :=
  match mOpt with
  | some m =>
      if jsGE (jsParseInt st.params_trial) (some m) then
        { st with number_trial_val := toString m, range_trial_val := toString m }
      else st
  | none => st

/-- Embedding of `changeSubjectHandler` (src/js/extras.js lines 6-13),
the handler for change/input events on the subject controls. -/
def changeSubjectHandler (st : WState) : WState :=
  -- let subject = parseInt(params.subject);
  let subject := jsParseInt st.params_subject
  -- let subjectsMax = max[subject - 1];
  let subjectsMax := lookupMax st.maxArr subject
  -- $("#number_trial, #range_trial").attr({ "max": subjectsMax });
  let st1 := setMaxAttr subjectsMax st
  -- $("#maxmin-1 > span:nth-child(1)").html("Max: " + subjectsMax);
  let st2 := { st1 with label := "Max: " ++ jsDisplay subjectsMax }
  -- if (parseInt(params.trial) >= subjectsMax) $("#number_trial, #range_trial").val(subjectsMax);
  let st3 := clampStep subjectsMax st2
  -- params.trial = $("#range_trial").val();
  { st3 with params_trial := JSVal.str st3.range_trial_val }

/-- Embedding of the anonymous change/input handler on the trial
controls (src/js/extras.js lines 15-19). -/
def trialChangeHandler (st : WState) : WState :=
  -- let subject = parseInt(params.subject);
  let subject := jsParseInt st.params_subject
  -- let subjectsMax = max[subject - 1];
  let subjectsMax := lookupMax st.maxArr subject
  -- if (parseInt(params.trial) >= subjectsMax) $("#number_trial, #range_trial").val(subjectsMax);
  clampStep subjectsMax st

example : parseIntStr "6" = some 6 := by decide
example : parseIntStr "" = none := by decide
example : parseIntStr "-14" = some (-14) := by decide
example : lookupMax maxTable (some 14) = some 4 := by decide
example : lookupMax maxTable (some 20) = none := by decide
example : lookupMax maxTable (some 0) = none := by decide

/-! ## Characterization lemmas for the two handlers -/

theorem clampStep_undef (st : WState) : clampStep none st = st := rfl

theorem clampStep_false (st : WState) (mOpt : Option Int)
    (h : jsGE (jsParseInt st.params_trial) mOpt = false) : clampStep mOpt st = st := by
  cases mOpt with
  | none => rfl
  | some m => simp [clampStep, h]

theorem clampStep_true (st : WState) (m : Int)
    (h : jsGE (jsParseInt st.params_trial) (some m) = true) :
    clampStep (some m) st =
      { st with number_trial_val := toString m, range_trial_val := toString m } := by
  simp [clampStep, h]

/-- A valid table lookup with a clamping trial value: the subject
handler sets both `max` attributes, the label, both control values, and
re-syncs `params.trial` to the slider's (clamped) string. -/
theorem changeSubject_run_clamp (st : WState) (m t : Int)
    (hl : lookupMax st.maxArr (jsParseInt st.params_subject) = some m)
    (ht : jsParseInt st.params_trial = some t) (hge : m ≤ t) :
    changeSubjectHandler st =
      { st with number_trial_max := toString m, range_trial_max := toString m,
                label := "Max: " ++ toString m,
                number_trial_val := toString m, range_trial_val := toString m,
                params_trial := JSVal.str (toString m) } := by
  simp only [changeSubjectHandler, hl, setMaxAttr, jsDisplay]
  rw [clampStep_true _ m (by simp [jsGE, ht, hge])]

/-- A valid table lookup with a non-clamping trial value: the subject
handler sets both `max` attributes and the label, leaves the control
values alone, and re-syncs `params.trial` to the slider's string. -/
theorem changeSubject_run_noclamp (st : WState) (m t : Int)
    (hl : lookupMax st.maxArr (jsParseInt st.params_subject) = some m)
    (ht : jsParseInt st.params_trial = some t) (hlt : t < m) :
    changeSubjectHandler st =
      { st with number_trial_max := toString m, range_trial_max := toString m,
                label := "Max: " ++ toString m,
                params_trial := JSVal.str st.range_trial_val } := by
  simp only [changeSubjectHandler, hl, setMaxAttr, jsDisplay]
  rw [clampStep_false _ _ (by simp [jsGE, ht]; omega)]

/-- A valid table lookup with an unparseable trial value: `NaN >= m`
is false, so no clamp; everything else proceeds as usual. -/
theorem changeSubject_run_noparse (st : WState) (m : Int)
    (hl : lookupMax st.maxArr (jsParseInt st.params_subject) = some m)
    (ht : jsParseInt st.params_trial = none) :
    changeSubjectHandler st =
      { st with number_trial_max := toString m, range_trial_max := toString m,
                label := "Max: " ++ toString m,
                params_trial := JSVal.str st.range_trial_val } := by
  simp only [changeSubjectHandler, hl, setMaxAttr, jsDisplay]
  rw [clampStep_false _ _ (by simp [jsGE, ht])]

/-- An undefined table lookup (subject index outside the array, or NaN):
the `attr` write is skipped by jQuery, the label reads `Max: undefined`,
the comparison against `undefined` is false so no clamp happens, and
`params.trial` still gets re-synced to the slider's string. -/
theorem changeSubject_run_undef (st : WState)
    (hl : lookupMax st.maxArr (jsParseInt st.params_subject) = none) :
    changeSubjectHandler st =
      { st with label := "Max: undefined",
                params_trial := JSVal.str st.range_trial_val } := by
  simp only [changeSubjectHandler, hl, setMaxAttr, jsDisplay]
  rw [clampStep_undef]
  rfl

/-- Trial handler, clamping case: both control values are forced to the
bound; nothing else changes. -/
theorem trialChange_run_clamp (st : WState) (m t : Int)
    (hl : lookupMax st.maxArr (jsParseInt st.params_subject) = some m)
    (ht : jsParseInt st.params_trial = some t) (hge : m ≤ t) :
    trialChangeHandler st =
      { st with number_trial_val := toString m, range_trial_val := toString m } := by
  simp only [trialChangeHandler, hl]
  rw [clampStep_true _ m (by simp [jsGE, ht, hge])]

/-- Trial handler, non-clamping case (comparison false for any reason:
undefined bound, NaN trial, or trial below the bound): the state is
completely unchanged. -/
theorem trialChange_run_id (st : WState)
    (h : jsGE (jsParseInt st.params_trial)
          (lookupMax st.maxArr (jsParseInt st.params_subject)) = false) :
    trialChangeHandler st = st := by
  simp only [trialChangeHandler]
  rw [clampStep_false _ _ h]

theorem jsGE_none_right (o : Option Int) : jsGE o none = false := by
  cases o <;> rfl

/-- The clamp touches only the two control values. -/
theorem clampStep_frame (mOpt : Option Int) (st : WState) :
    (clampStep mOpt st).number_trial_max = st.number_trial_max ∧
    (clampStep mOpt st).range_trial_max = st.range_trial_max ∧
    (clampStep mOpt st).label = st.label ∧
    (clampStep mOpt st).params_subject = st.params_subject ∧
    (clampStep mOpt st).params_trial = st.params_trial ∧
    (clampStep mOpt st).maxArr = st.maxArr := by
  cases mOpt with
  | none => exact ⟨rfl, rfl, rfl, rfl, rfl, rfl⟩
  | some m =>
    simp only [clampStep]
    split
    · exact ⟨rfl, rfl, rfl, rfl, rfl, rfl⟩
    · exact ⟨rfl, rfl, rfl, rfl, rfl, rfl⟩

/-- The `attr` write touches only the two `max` attributes. -/
theorem setMaxAttr_frame (mOpt : Option Int) (st : WState) :
    (setMaxAttr mOpt st).number_trial_val = st.number_trial_val ∧
    (setMaxAttr mOpt st).range_trial_val = st.range_trial_val ∧
    (setMaxAttr mOpt st).label = st.label ∧
    (setMaxAttr mOpt st).params_subject = st.params_subject ∧
    (setMaxAttr mOpt st).params_trial = st.params_trial ∧
    (setMaxAttr mOpt st).maxArr = st.maxArr := by
  cases mOpt with
  | none => exact ⟨rfl, rfl, rfl, rfl, rfl, rfl⟩
  | some m => exact ⟨rfl, rfl, rfl, rfl, rfl, rfl⟩

/-- Neither handler ever writes the `max` array. -/
theorem changeSubject_maxArr (st : WState) :
    (changeSubjectHandler st).maxArr = st.maxArr := by
  simp only [changeSubjectHandler]
  rw [(clampStep_frame _ _).2.2.2.2.2, (setMaxAttr_frame _ _).2.2.2.2.2]

theorem trialChange_maxArr (st : WState) :
    (trialChangeHandler st).maxArr = st.maxArr := by
  simp only [trialChangeHandler]
  rw [(clampStep_frame _ _).2.2.2.2.2]

/-- A defined lookup result is a table entry. -/
theorem lookupMax_mem (arr : List Int) (o : Option Int) (m : Int)
    (h : lookupMax arr o = some m) : m ∈ arr := by
  cases o with
  | none => exact absurd h (by simp [lookupMax])
  | some s =>
    simp only [lookupMax] at h
    split at h
    · exact absurd h (by simp)
    · exact List.get?_mem h

/-- For an in-range subject, `max[s - 1]` is the table entry. -/
theorem lookupMax_maxTable_in (s : Int) (m : Int) (hs1 : 1 ≤ s)
    (hm : maxTable.get? (s - 1).toNat = some m) :
    lookupMax maxTable (some s) = some m := by
  simp only [lookupMax]
  rw [if_neg (by omega)]
  exact hm

/-- For an out-of-range subject, `max[s - 1]` is `undefined`. -/
theorem lookupMax_maxTable_out (s : Int) (hout : s < 1 ∨ 19 < s) :
    lookupMax maxTable (some s) = none := by
  simp only [lookupMax]
  rcases hout with h | h
  · rw [if_pos (by omega)]
  · rw [if_neg (by omega)]
    refine List.get?_eq_none.mpr ?_
    have h19 : maxTable.length = 19 := by decide
    omega

/-- An in-range subject always has a defined table entry. -/
theorem maxTable_get_total (s : Int) (hs1 : 1 ≤ s) (hs19 : s ≤ 19) :
    ∃ m, maxTable.get? (s - 1).toNat = some m := by
  have hlt : (s - 1).toNat < maxTable.length := by
    have h19 : maxTable.length = 19 := by decide
    omega
  exact ⟨maxTable.get ⟨(s - 1).toNat, hlt⟩, List.get?_eq_get hlt⟩

/-- Every table entry's decimal rendering parses back to itself.  This
is what makes the clamped value survive the string round-trip through
the control and `params.trial`. -/
theorem maxTable_parse_roundtrip : ∀ m ∈ maxTable, parseIntStr (toString m) = some m := by
  decide

/-! ## The claims -/

/-- C3: for every subject `s` in 1..19, after `changeSubjectHandler`
runs with `params.subject` parsing to `s`, the `max` attribute of both
trial controls equals `SubjectMaxTable[s-1]` (as its decimal string)
and the label text equals `"Max: "` concatenated with that value. -/
theorem claim_C3_attr_and_label (st : WState) (s m : Int)
    (harr : st.maxArr = maxTable)
    (hs : jsParseInt st.params_subject = some s)
    (hs1 : 1 ≤ s) (hs19 : s ≤ 19)
    (hm : maxTable.get? (s - 1).toNat = some m) :
    (changeSubjectHandler st).number_trial_max = toString m ∧
    (changeSubjectHandler st).range_trial_max = toString m ∧
    (changeSubjectHandler st).label = "Max: " ++ toString m := by
  have hl : lookupMax st.maxArr (jsParseInt st.params_subject) = some m := by
    rw [harr, hs]
    exact lookupMax_maxTable_in s m hs1 hm
  rcases hpt : jsParseInt st.params_trial with _ | t
  · rw [changeSubject_run_noparse st m hl hpt]
    exact ⟨rfl, rfl, rfl⟩
  · rcases le_or_lt m t with hge | hlt
    · rw [changeSubject_run_clamp st m t hl hpt hge]
      exact ⟨rfl, rfl, rfl⟩
    · rw [changeSubject_run_noclamp st m t hl hpt hlt]
      exact ⟨rfl, rfl, rfl⟩

def c3wit : WState :=
  { number_trial_val := "2", range_trial_val := "2",
    number_trial_max := "6", range_trial_max := "6", label := "Max: 6",
    params_subject := JSVal.str "7", params_trial := JSVal.str "2",
    maxArr := maxTable }

theorem claim_C3_attr_and_label_witness :
    (changeSubjectHandler c3wit).number_trial_max = toString (6 : Int) ∧
    (changeSubjectHandler c3wit).range_trial_max = toString (6 : Int) ∧
    (changeSubjectHandler c3wit).label = "Max: " ++ toString (6 : Int) :=
  claim_C3_attr_and_label c3wit 7 6 rfl (by decide) (by decide) (by decide) (by decide)

/-- C4: the trial-change handler never writes the `params` object: for
every starting state, both `params.subject` and `params.trial` are
unchanged after a run of `trialChangeHandler`. -/
theorem claim_C4_trial_handler_no_params_write (st : WState) :
    (trialChangeHandler st).params_subject = st.params_subject ∧
    (trialChangeHandler st).params_trial = st.params_trial := by
  simp only [trialChangeHandler]
  exact ⟨(clampStep_frame _ _).2.2.2.1, (clampStep_frame _ _).2.2.2.2.1⟩

def c6st : WState :=
  { number_trial_val := "6", range_trial_val := "6",
    number_trial_max := "6", range_trial_max := "6", label := "Max: 6",
    params_subject := JSVal.str "14", params_trial := JSVal.str "6",
    maxArr := maxTable }

/-- C6: with `params.subject = 14` (table entry 4) and trial value 6,
after `changeSubjectHandler` runs both trial representations hold `"4"`,
the label reads `"Max: 4"`, and `params.trial` equals 4 — concretely it
holds the slider's string `"4"`, which is what JavaScript's coercing
comparison `params.trial == 4` accepts and what `parseInt` reads back
as the number 4. -/
theorem claim_C6_subject14_scenario :
    (changeSubjectHandler c6st).number_trial_val = "4" ∧
    (changeSubjectHandler c6st).range_trial_val = "4" ∧
    (changeSubjectHandler c6st).label = "Max: 4" ∧
    (changeSubjectHandler c6st).params_trial = JSVal.str "4" ∧
    jsParseInt (changeSubjectHandler c6st).params_trial = some 4 := by
  decide

def c7cex : WState :=
  { number_trial_val := "6", range_trial_val := "6",
    number_trial_max := "6", range_trial_max := "6", label := "Max: 6",
    params_subject := JSVal.str "14", params_trial := JSVal.str "6",
    maxArr := maxTable }

/-- C7 counterexample: the claim says the re-sync step stores the
integer parse of the trial control's value ("an integer, not a raw
string").  The source line is `params.trial = $("#range_trial").val();`
and jQuery's `.val()` returns the raw value string, so after the run
from a concrete clamping state `params.trial` is the string `"4"`, not
the number 4. -/
theorem claim_C7_counterexample :
    (changeSubjectHandler c7cex).params_trial = JSVal.str "4" ∧
    (changeSubjectHandler c7cex).params_trial ≠ JSVal.num 4 := by
  decide

/-- C7 amended: the value written to `params.trial` by the final
re-sync step of `changeSubjectHandler` is the slider control's raw
value string; since `params.trial` is only ever read through
`parseInt`, its numeric reading equals the integer parse of the
control's current string value. -/
theorem claim_C7_amended_raw_string_resync (st : WState) :
    (changeSubjectHandler st).params_trial
      = JSVal.str (changeSubjectHandler st).range_trial_val ∧
    jsParseInt (changeSubjectHandler st).params_trial
      = parseIntStr (changeSubjectHandler st).range_trial_val := by
  exact ⟨rfl, rfl⟩

/-- C1: for every subject `s` in 1..19 and every prior trial value `t`
(held consistently by both trial controls and `params.trial`), after
`changeSubjectHandler` runs: if `t >= SubjectMaxTable[s-1]` then both
trial representations equal `SubjectMaxTable[s-1]`; otherwise both are
left untouched and still represent `t`.  In particular at `t = m` the
clamp rewrites the controls to the value they already denote: a no-op
in effect. -/
theorem claim_C1_subject_change_clamp (st : WState) (s t m : Int)
    (harr : st.maxArr = maxTable)
    (hs : jsParseInt st.params_subject = some s)
    (hs1 : 1 ≤ s) (hs19 : s ≤ 19)
    (hm : maxTable.get? (s - 1).toNat = some m)
    (ht : jsParseInt st.params_trial = some t)
    (hn : parseIntStr st.number_trial_val = some t)
    (hr : parseIntStr st.range_trial_val = some t) :
    (m ≤ t →
      (changeSubjectHandler st).number_trial_val = toString m ∧
      (changeSubjectHandler st).range_trial_val = toString m) ∧
    (t < m →
      (changeSubjectHandler st).number_trial_val = st.number_trial_val ∧
      (changeSubjectHandler st).range_trial_val = st.range_trial_val ∧
      parseIntStr (changeSubjectHandler st).number_trial_val = some t ∧
      parseIntStr (changeSubjectHandler st).range_trial_val = some t) := by
  have hl : lookupMax st.maxArr (jsParseInt st.params_subject) = some m := by
    rw [harr, hs]
    exact lookupMax_maxTable_in s m hs1 hm
  constructor
  · intro hge
    rw [changeSubject_run_clamp st m t hl ht hge]
    exact ⟨rfl, rfl⟩
  · intro hlt
    rw [changeSubject_run_noclamp st m t hl ht hlt]
    exact ⟨rfl, rfl, hn, hr⟩

def c1wit : WState :=
  { number_trial_val := "5", range_trial_val := "5",
    number_trial_max := "6", range_trial_max := "6", label := "Max: 6",
    params_subject := JSVal.str "2", params_trial := JSVal.str "5",
    maxArr := maxTable }

theorem claim_C1_subject_change_clamp_witness :
    ((4 : Int) ≤ 5 →
      (changeSubjectHandler c1wit).number_trial_val = toString (4 : Int) ∧
      (changeSubjectHandler c1wit).range_trial_val = toString (4 : Int)) ∧
    ((5 : Int) < 4 →
      (changeSubjectHandler c1wit).number_trial_val = c1wit.number_trial_val ∧
      (changeSubjectHandler c1wit).range_trial_val = c1wit.range_trial_val ∧
      parseIntStr (changeSubjectHandler c1wit).number_trial_val = some 5 ∧
      parseIntStr (changeSubjectHandler c1wit).range_trial_val = some 5) :=
  claim_C1_subject_change_clamp c1wit 2 5 4 rfl (by decide) (by decide)
    (by decide) (by decide) (by decide) (by decide) (by decide)

/-- C10: in both handlers the clamp decision depends only on
`params.trial`, never on what the trial controls display: whenever
`parseInt(params.trial)` is at least the subject's maximum, each
handler overwrites both trial representations with the maximum even if
the controls currently show a strictly smaller value, discarding it. -/
theorem claim_C10_clamp_reads_params_only (st : WState) (s t u m : Int)
    (harr : st.maxArr = maxTable)
    (hs : jsParseInt st.params_subject = some s)
    (hs1 : 1 ≤ s) (hs19 : s ≤ 19)
    (hm : maxTable.get? (s - 1).toNat = some m)
    (ht : jsParseInt st.params_trial = some t) (hge : m ≤ t)
    (hn : parseIntStr st.number_trial_val = some u)
    (hr : parseIntStr st.range_trial_val = some u) (hu : u < m) :
    (changeSubjectHandler st).number_trial_val = toString m ∧
    (changeSubjectHandler st).range_trial_val = toString m ∧
    (trialChangeHandler st).number_trial_val = toString m ∧
    (trialChangeHandler st).range_trial_val = toString m := by
  have hl : lookupMax st.maxArr (jsParseInt st.params_subject) = some m := by
    rw [harr, hs]
    exact lookupMax_maxTable_in s m hs1 hm
  rw [changeSubject_run_clamp st m t hl ht hge, trialChange_run_clamp st m t hl ht hge]
  exact ⟨rfl, rfl, rfl, rfl⟩

def c10wit : WState :=
  { number_trial_val := "2", range_trial_val := "2",
    number_trial_max := "6", range_trial_max := "6", label := "Max: 6",
    params_subject := JSVal.str "1", params_trial := JSVal.num 10,
    maxArr := maxTable }

theorem claim_C10_clamp_reads_params_only_witness :
    (changeSubjectHandler c10wit).number_trial_val = toString (6 : Int) ∧
    (changeSubjectHandler c10wit).range_trial_val = toString (6 : Int) ∧
    (trialChangeHandler c10wit).number_trial_val = toString (6 : Int) ∧
    (trialChangeHandler c10wit).range_trial_val = toString (6 : Int) :=
  claim_C10_clamp_reads_params_only c10wit 1 10 2 6 rfl (by decide) (by decide)
    (by decide) (by decide) (by decide) (by decide) (by decide) (by decide) (by decide)

def c2cex : WState :=
  { number_trial_val := "0", range_trial_val := "0",
    number_trial_max := "6", range_trial_max := "6", label := "Max: 6",
    params_subject := JSVal.str "1", params_trial := JSVal.str "0",
    maxArr := maxTable }

/-- C2 counterexample: the claimed invariant `1 <= trial` is not
established by the handlers.  From the state with subject 1 and trial
value 0 everywhere, a full run of `changeSubjectHandler` settles with
trial still 0 in both controls and in `params.trial`, violating the
lower bound. -/
theorem claim_C2_counterexample :
    parseIntStr (changeSubjectHandler c2cex).number_trial_val = some 0 ∧
    parseIntStr (changeSubjectHandler c2cex).range_trial_val = some 0 ∧
    jsParseInt (changeSubjectHandler c2cex).params_trial = some 0 ∧
    ¬ (1 ≤ (0 : Int)) := by
  decide

/-- C2 amended: from a consistent state (both trial controls and
`params.trial` denote the same integer `t`, subject in 1..19), after a
run of `changeSubjectHandler` all three trial representations denote a
common integer at most `SubjectMaxTable[subject-1]` and the label
equals `"Max: "` plus that maximum.  The lower bound `1 <= trial` is
not enforced by the handlers, and the trial-change path does not
restore the upper bound for `params.trial` (it never writes it). -/
theorem claim_C2_amended_upper_bound_after_subject_change (st : WState) (s t m : Int)
    (harr : st.maxArr = maxTable)
    (hs : jsParseInt st.params_subject = some s)
    (hs1 : 1 ≤ s) (hs19 : s ≤ 19)
    (hm : maxTable.get? (s - 1).toNat = some m)
    (ht : jsParseInt st.params_trial = some t)
    (hn : parseIntStr st.number_trial_val = some t)
    (hr : parseIntStr st.range_trial_val = some t) :
    ∃ u : Int, u ≤ m ∧
      parseIntStr (changeSubjectHandler st).number_trial_val = some u ∧
      parseIntStr (changeSubjectHandler st).range_trial_val = some u ∧
      jsParseInt (changeSubjectHandler st).params_trial = some u ∧
      (changeSubjectHandler st).label = "Max: " ++ toString m := by
  have hl : lookupMax st.maxArr (jsParseInt st.params_subject) = some m := by
    rw [harr, hs]
    exact lookupMax_maxTable_in s m hs1 hm
  have hmem : m ∈ maxTable := by
    refine lookupMax_mem maxTable (jsParseInt st.params_subject) m ?_
    rw [← harr]
    exact hl
  have hround : parseIntStr (toString m) = some m := maxTable_parse_roundtrip m hmem
  rcases le_or_lt m t with hge | hlt
  · rw [changeSubject_run_clamp st m t hl ht hge]
    exact ⟨m, le_refl m, hround, hround, hround, rfl⟩
  · rw [changeSubject_run_noclamp st m t hl ht hlt]
    exact ⟨t, le_of_lt hlt, hn, hr, hr, rfl⟩

def c2wit : WState :=
  { number_trial_val := "3", range_trial_val := "3",
    number_trial_max := "6", range_trial_max := "6", label := "Max: 6",
    params_subject := JSVal.str "1", params_trial := JSVal.str "3",
    maxArr := maxTable }

theorem claim_C2_amended_upper_bound_after_subject_change_witness :
    ∃ u : Int, u ≤ 6 ∧
      parseIntStr (changeSubjectHandler c2wit).number_trial_val = some u ∧
      parseIntStr (changeSubjectHandler c2wit).range_trial_val = some u ∧
      jsParseInt (changeSubjectHandler c2wit).params_trial = some u ∧
      (changeSubjectHandler c2wit).label = "Max: " ++ toString (6 : Int) :=
  claim_C2_amended_upper_bound_after_subject_change c2wit 1 3 6 rfl (by decide)
    (by decide) (by decide) (by decide) (by decide) (by decide) (by decide)

def c5cex : WState :=
  { number_trial_val := "100", range_trial_val := "100",
    number_trial_max := "6", range_trial_max := "6", label := "Max: 6",
    params_subject := JSVal.str "1", params_trial := JSVal.num 3,
    maxArr := maxTable }

/-- C5 counterexample: `changeSubjectHandler` is not idempotent on
every state with subject in 1..19.  With subject 1 (maximum 6),
`params.trial = 3` but the controls showing `"100"`, the first run does
not clamp (3 < 6) yet re-syncs `params.trial` to `"100"`; the second
run then clamps the controls to `"6"` and re-syncs `params.trial` to
`"6"`, so running twice differs from running once. -/
theorem claim_C5_counterexample :
    changeSubjectHandler (changeSubjectHandler c5cex) ≠ changeSubjectHandler c5cex := by
  decide

/-- C5 amended: `changeSubjectHandler` is idempotent on every state
whose `params.trial` and slider value parse to the same result (the
consistency the widget itself maintains), with the table in place and
subject in 1..19: running it twice equals running it once. -/
theorem claim_C5_amended_idempotent_on_consistent (st : WState) (s : Int)
    (harr : st.maxArr = maxTable)
    (hs : jsParseInt st.params_subject = some s)
    (hs1 : 1 ≤ s) (hs19 : s ≤ 19)
    (hcons : jsParseInt st.params_trial = parseIntStr st.range_trial_val) :
    changeSubjectHandler (changeSubjectHandler st) = changeSubjectHandler st := by
  obtain ⟨m, hm⟩ := maxTable_get_total s hs1 hs19
  have hl : lookupMax st.maxArr (jsParseInt st.params_subject) = some m := by
    rw [harr, hs]
    exact lookupMax_maxTable_in s m hs1 hm
  have hmem : m ∈ maxTable := by
    refine lookupMax_mem maxTable (jsParseInt st.params_subject) m ?_
    rw [← harr]
    exact hl
  have hround : parseIntStr (toString m) = some m := maxTable_parse_roundtrip m hmem
  rcases ht : jsParseInt st.params_trial with _ | t
  · have hrn : parseIntStr st.range_trial_val = none := by rw [← hcons]; exact ht
    rw [changeSubject_run_noparse st m hl ht]
    refine (changeSubject_run_noparse _ m ?_ ?_).trans rfl
    · exact hl
    · exact hrn
  · have hrt : parseIntStr st.range_trial_val = some t := by rw [← hcons]; exact ht
    rcases le_or_lt m t with hge | hlt
    · rw [changeSubject_run_clamp st m t hl ht hge]
      refine (changeSubject_run_clamp _ m m ?_ ?_ (le_refl m)).trans rfl
      · exact hl
      · exact hround
    · rw [changeSubject_run_noclamp st m t hl ht hlt]
      refine (changeSubject_run_noclamp _ m t ?_ ?_ hlt).trans rfl
      · exact hl
      · exact hrt

def c5wit : WState :=
  { number_trial_val := "3", range_trial_val := "3",
    number_trial_max := "6", range_trial_max := "6", label := "Max: 6",
    params_subject := JSVal.str "1", params_trial := JSVal.str "3",
    maxArr := maxTable }

theorem claim_C5_amended_idempotent_on_consistent_witness :
    changeSubjectHandler (changeSubjectHandler c5wit) = changeSubjectHandler c5wit :=
  claim_C5_amended_idempotent_on_consistent c5wit 1 rfl (by decide) (by decide)
    (by decide) (by decide)

def c9cex : WState :=
  { number_trial_val := "3", range_trial_val := "3",
    number_trial_max := "6", range_trial_max := "6", label := "Max: 6",
    params_subject := JSVal.str "20", params_trial := JSVal.str "3",
    maxArr := maxTable }

/-- C9 counterexample: for out-of-range subject 20 the claim says
`changeSubjectHandler` overwrites the `max` attribute with the
undefined bound.  It does not: jQuery's `.attr` with an undefined value
performs no write, so the attribute keeps its previous value `"6"`;
only the label is overwritten, reading `"Max: undefined"`. -/
theorem claim_C9_counterexample :
    (changeSubjectHandler c9cex).number_trial_max = "6" ∧
    (changeSubjectHandler c9cex).range_trial_max = "6" ∧
    (changeSubjectHandler c9cex).number_trial_max ≠ "undefined" ∧
    (changeSubjectHandler c9cex).label = "Max: undefined" := by
  decide

/-- C9 amended: for every subject value outside 1..19 the table lookup
yields no value, so the clamp comparison is false and neither handler
modifies the trial controls' value (and neither fails — both are total
functions); `changeSubjectHandler` overwrites the label with
`"Max: undefined"` but leaves both `max` attributes unchanged, and the
trial handler leaves the whole state unchanged. -/
theorem claim_C9_amended_out_of_range_subject (st : WState) (s : Int)
    (harr : st.maxArr = maxTable)
    (hs : jsParseInt st.params_subject = some s)
    (hout : s < 1 ∨ 19 < s) :
    (changeSubjectHandler st).number_trial_val = st.number_trial_val ∧
    (changeSubjectHandler st).range_trial_val = st.range_trial_val ∧
    (changeSubjectHandler st).number_trial_max = st.number_trial_max ∧
    (changeSubjectHandler st).range_trial_max = st.range_trial_max ∧
    (changeSubjectHandler st).label = "Max: undefined" ∧
    trialChangeHandler st = st := by
  have hl : lookupMax st.maxArr (jsParseInt st.params_subject) = none := by
    rw [harr, hs]
    exact lookupMax_maxTable_out s hout
  refine ⟨?_, ?_, ?_, ?_, ?_, ?_⟩
  · rw [changeSubject_run_undef st hl]
  · rw [changeSubject_run_undef st hl]
  · rw [changeSubject_run_undef st hl]
  · rw [changeSubject_run_undef st hl]
  · rw [changeSubject_run_undef st hl]
  · refine trialChange_run_id st ?_
    rw [hl]
    exact jsGE_none_right _

def c9wit : WState :=
  { number_trial_val := "2", range_trial_val := "2",
    number_trial_max := "4", range_trial_max := "4", label := "Max: 4",
    params_subject := JSVal.str "0", params_trial := JSVal.str "2",
    maxArr := maxTable }

theorem claim_C9_amended_out_of_range_subject_witness :
    (changeSubjectHandler c9wit).number_trial_val = c9wit.number_trial_val ∧
    (changeSubjectHandler c9wit).range_trial_val = c9wit.range_trial_val ∧
    (changeSubjectHandler c9wit).number_trial_max = c9wit.number_trial_max ∧
    (changeSubjectHandler c9wit).range_trial_max = c9wit.range_trial_max ∧
    (changeSubjectHandler c9wit).label = "Max: undefined" ∧
    trialChangeHandler c9wit = c9wit :=
  claim_C9_amended_out_of_range_subject c9wit 0 rfl (by decide) (Or.inl (by decide))

/-- C8: the table is the fixed ordered sequence
`[6,4,6,6,6,6,6,6,6,6,6,6,6,4,6,6,6,6,6]` of 19 positive integers, and
neither handler ever mutates it: after every run of either handler the
array in the state is unchanged. -/
theorem claim_C8_table_fixed_and_never_mutated :
    maxTable = [6, 4, 6, 6, 6, 6, 6, 6, 6, 6, 6, 6, 6, 4, 6, 6, 6, 6, 6] ∧
    maxTable.length = 19 ∧
    (∀ x ∈ maxTable, 0 < x) ∧
    ∀ st : WState, (changeSubjectHandler st).maxArr = st.maxArr ∧
      (trialChangeHandler st).maxArr = st.maxArr := by
  exact ⟨rfl, by decide, by decide,
    fun st => ⟨changeSubject_maxArr st, trialChange_maxArr st⟩⟩
